import Mathlib

/-!
Verification of the ai-tutor-bot memory/context-retrieval component.

Shallow embedding of `backend/memory/vector_store.py`,
`backend/agents/tutor_agent.py` and the relevant handlers of
`backend/api/main.py`.

The external collaborators are modelled as pure parameters:
the embedding/similarity service as a distance function
`dist : String → String → Nat` (distance of a stored text from the query;
smaller is more similar), and the text-completion service as
`llm : String → String`.  The Chroma vector store is modelled as the
list of stored documents together with the behaviour its API guarantees:
`add_texts` appends, `similarity_search` returns the `k` nearest
documents among those matching the metadata filter, most-similar first.
-/

namespace AiTutorBot

/-- Scalar metadata values (Chroma metadata holds strings and numbers). -/
inductive MetaValue where
  | str : String → MetaValue
  | int : Int → MetaValue
deriving DecidableEq

/-- Metadata: a finite key-value mapping, modelled as an association list.
A Python dict literal with later-wins override semantics is modelled by
putting overriding entries first, since `List.lookup` takes the first hit. -/
abbrev Metadata := List (String × MetaValue)

/-- One document stored in the Chroma vector store: its text
(`page_content` in langchain) and its metadata. -/
structure StoredDoc where
  page_content : String
  metadata : Metadata
deriving DecidableEq

/-- State of the Chroma vector store: the list of stored documents, in
insertion order. -/
structure VectorStore where
  docs : List StoredDoc
deriving DecidableEq

/-- Chroma `add_texts(texts=..., metadatas=...)`: stores each text with
its metadata. -/
def VectorStore.add_texts (vs : VectorStore) (texts : List String)
    (metadatas : List Metadata) : VectorStore :=
  ⟨vs.docs ++ (texts.zip metadatas).map fun tm => ⟨tm.1, tm.2⟩⟩

/-- Chroma metadata filter semantics: a document matches the filter when
every key of the filter is present in its metadata with that exact value. -/
def matchesFilter (flt : Metadata) (doc : StoredDoc) : Bool :=
  flt.all fun kv => decide (List.lookup kv.1 doc.metadata = some kv.2)

/-- Comparison used by the modelled similarity service: `a` is at least as
similar to the query as `b` when its distance from the query is no larger. -/
abbrev docLe (dist : String → String → Nat) (query : String)
    (a b : StoredDoc) : Prop :=
  dist query a.page_content ≤ dist query b.page_content

instance (dist : String → String → Nat) (query : String) :
    IsTotal StoredDoc (docLe dist query) :=
  ⟨fun _ _ => Nat.le_total _ _⟩

instance (dist : String → String → Nat) (query : String) :
    IsTrans StoredDoc (docLe dist query) :=
  ⟨fun _ _ _ h h2 => Nat.le_trans h h2⟩

/-- Chroma `similarity_search(query, k=k, filter=flt)`: the `k` stored
documents nearest to the query among those matching the filter,
most-similar first (pre-filter, then top-k by the distance metric). -/
def VectorStore.similarity_search (dist : String → String → Nat)
    (vs : VectorStore) (query : String) (k : Nat) (flt : Metadata) :
    List StoredDoc :=
  (List.insertionSort (docLe dist query)
    (vs.docs.filter (matchesFilter flt))).take k

/-- `MemoryManager` from `backend/memory/vector_store.py`: wraps the
vector store (the embedding function is part of the modelled similarity
service `dist`). -/
structure MemoryManager where
  vectorstore : VectorStore
deriving DecidableEq

/-- `MemoryManager.add_user_interaction`: stores the interaction text with
metadata given by the dict literal with entries user_id plus the caller
metadata spread over it (spread entries win, hence come first in the
association list). -/
def MemoryManager.add_user_interaction (mm : MemoryManager)
    (user_id interaction : String) (metadata : Metadata) : MemoryManager :=
  ⟨mm.vectorstore.add_texts [interaction]
    [metadata ++ [("user_id", MetaValue.str user_id)]]⟩

/-- `MemoryManager.get_user_context`: similarity search filtered on
user_id, returning the page contents.  The Python default `k = 5` is
passed explicitly by callers in this model. -/
def MemoryManager.get_user_context (dist : String → String → Nat)
    (mm : MemoryManager) (user_id query : String) (k : Nat) : List String :=
  (mm.vectorstore.similarity_search dist query k
    [("user_id", MetaValue.str user_id)]).map (·.page_content)

/-- `MemoryManager.add_lesson_content`: stores lesson content with
metadata type=lesson and the lesson id; no user_id key. -/
def MemoryManager.add_lesson_content (mm : MemoryManager)
    (lesson_id content : String) : MemoryManager :=
  ⟨mm.vectorstore.add_texts [content]
    [[("type", MetaValue.str "lesson"),
      ("lesson_id", MetaValue.str lesson_id)]]⟩

/-- Langchain `ConversationBufferWindowMemory(k=10)`: keeps a window of
the `k` most recent (human, ai) exchanges. -/
structure ConversationBufferWindowMemory where
  k : Nat
  messages : List (String × String)
deriving DecidableEq

/-- The `buffer` property: the last `k` exchanges of the window rendered
as a history string. -/
def ConversationBufferWindowMemory.buffer
    (m : ConversationBufferWindowMemory) : String :=
  String.intercalate "\n"
    ((m.messages.drop (m.messages.length - m.k)).map fun p =>
      "Human: " ++ p.1 ++ "\nAI: " ++ p.2)

/-- `TutorAgent` state: the shared memory manager and the conversation
window (`self.conversation_memory`). -/
structure TutorAgent where
  memory_manager : MemoryManager
  conversation_memory : ConversationBufferWindowMemory
deriving DecidableEq

/-- `TutorAgent.__init__`: fresh window of capacity 10 over the given
memory manager. -/
def TutorAgent.init (mm : MemoryManager) : TutorAgent :=
  ⟨mm, ⟨10, []⟩⟩

/-- The `tutor_prompt` template of `TutorAgent`, with the four input
variables substituted. -/
def tutor_prompt (context user_level question history : String) : String :=
  "You are an expert C programming tutor. You\x27re patient, encouraging, and adapt your teaching style to the student\x27s level.\n\nStudent Level: "
    ++ user_level
    ++ "\nPrevious Context: " ++ context
    ++ "\nConversation History: " ++ history
    ++ "\n\nStudent Question: " ++ question
    ++ "\n\nGuidelines:\n- Provide clear, step-by-step explanations\n- Use appropriate examples for the student\x27s level\n- Encourage questions and experimentation\n- Point out common mistakes and how to avoid them\n- If the student seems stuck, break down the problem into smaller parts\n\nResponse:"

/-- `TutorAgent.generate_response`: retrieve context (k defaults to 5),
format the prompt with the window buffer as history, call the completion
service, store the exchange under the user scope, return the response.
The conversation window is not modified (the source has no call that
appends to `conversation_memory`). -/
def TutorAgent.generate_response (dist : String → String → Nat)
    (llm : String → String) (agent : TutorAgent)
    (user_id question : String) (user_level : Int) :
    String × TutorAgent :=
  let context := agent.memory_manager.get_user_context dist user_id question 5
  let context_str := String.intercalate "\n" context
  let formatted_prompt := tutor_prompt context_str (toString user_level)
    question agent.conversation_memory.buffer
  let response := llm formatted_prompt
  let mm := agent.memory_manager.add_user_interaction user_id
    ("Q: " ++ question ++ "\nA: " ++ response)
    [("type", MetaValue.str "qa"), ("level", MetaValue.int user_level)]
  (response, { agent with memory_manager := mm })

/-- A structured quiz question record, per the `QuizQuestion` fields the
parser is meant to produce (question, options, zero-based correct-answer
index, explanation). -/
structure QuizQuestion where
  question : String
  options : List String
  correct_answer : Nat
  explanation : String
deriving DecidableEq

/-- `TutorAgent._parse_quiz_response`: the source is an unimplemented
stub that initialises `questions = []` and returns it unchanged. -/
def TutorAgent.parseQuizResponse (response : String) : List QuizQuestion :=
  let questions : List QuizQuestion := []
  questions

/-- The `quiz_prompt` f-string built inside `TutorAgent.generate_quiz`. -/
def quiz_prompt (topic : String) (difficulty : Int) (num_questions : Nat) :
    String :=
  "Generate " ++ toString num_questions
    ++ " multiple choice questions about " ++ topic
    ++ " in C programming.\nDifficulty level: " ++ toString difficulty
    ++ "/10\n\nFormat each question as:\nQ: [question]\nA) [option 1]\nB) [option 2] \nC) [option 3]\nD) [option 4]\nCorrect: [A/B/C/D]\nExplanation: [brief explanation]\n\n---"

/-- `TutorAgent.generate_quiz`: build the quiz prompt, submit it to the
completion service, parse the result.  The Python default
`num_questions = 5` is passed explicitly by callers in this model. -/
def TutorAgent.generate_quiz (llm : String → String) (topic : String)
    (difficulty : Int) (num_questions : Nat) : List QuizQuestion :=
  let qp := quiz_prompt topic difficulty num_questions
  let response := llm qp
  TutorAgent.parseQuizResponse response

/-- `UserProfile` from `backend/models/schemas.py`.  Datetimes are
modelled as Nat timestamps, preference values as strings. -/
structure UserProfile where
  user_id : String
  name : String
  current_level : Int
  completed_lessons : List String
  quiz_scores : List (String × Float)
  learning_preferences : List (String × String)
  created_at : Nat
  last_active : Nat

/-- `ChatMessage` request body from `backend/models/schemas.py`. -/
structure ChatMessage where
  message : String
  user_id : String
  context : Option String

/-- Possible HTTP-level results of the API handlers. -/
inductive ApiResponse where
  | ok_chat (response : String)
  | ok_quiz (quiz : List QuizQuestion)
  | ok_user (profile : UserProfile)
  | http_error (status_code : Nat) (detail : String)

/-- The in-memory `users_db` table of `backend/api/main.py`. -/
abbrev UsersDb := List (String × UserProfile)

/-- `POST /api/chat` handler: user level defaults to 1 when the user id
is unknown (`users_db.get(user_id, dict()).get("current_level", 1)`),
then delegates to `generate_response`.  The except branch catches
external-service failures only; the services are modelled as total
functions, so that branch is unreachable in the model. -/
def chat (dist : String → String → Nat) (llm : String → String)
    (users_db : UsersDb) (agent : TutorAgent) (message : ChatMessage) :
    ApiResponse × TutorAgent :=
  let user_level :=
    ((users_db.lookup message.user_id).map UserProfile.current_level).getD 1
  let r := agent.generate_response dist llm message.user_id message.message
    user_level
  (ApiResponse.ok_chat r.1, r.2)

/-- `GET /api/users/user_id` handler: 404 when the user id is unknown. -/
def get_user (users_db : UsersDb) (user_id : String) : ApiResponse :=
  match users_db.lookup user_id with
  | some u => ApiResponse.ok_user u
  | none => ApiResponse.http_error 404 "User not found"

/-- Query-parameter extraction of the `POST /api/quiz/topic` handler:
its signature declares only `difficulty: int = 5`; every other query
parameter is ignored. -/
def api_quiz_difficulty (query_params : List (String × String)) : Int :=
  ((query_params.lookup "difficulty").bind String.toInt?).getD 5

/-- `POST /api/quiz/topic` handler: calls
`tutor_agent.generate_quiz(topic, difficulty)`, so `num_questions` takes
its Python default 5. -/
def api_generate_quiz (llm : String → String) (topic : String)
    (query_params : List (String × String)) : ApiResponse :=
  ApiResponse.ok_quiz
    (TutorAgent.generate_quiz llm topic (api_quiz_difficulty query_params) 5)

/-- The prompt that the `POST /api/quiz/topic` handler causes
`generate_quiz` to submit to the completion service. -/
def api_quiz_prompt_submitted (topic : String)
    (query_params : List (String × String)) : String :=
  quiz_prompt topic (api_quiz_difficulty query_params) 5

/-- One call of the chat flow: which user, their question, their level. -/
structure ChatCall where
  user_id : String
  question : String
  user_level : Int

/-- Run a sequence of `generate_response` calls against the single shared
`TutorAgent` instance (as `main.py` holds one global agent). -/
def runTrace (dist : String → String → Nat) (llm : String → String)
    (agent : TutorAgent) : List ChatCall → TutorAgent
  | [] => agent
  | c :: cs =>
    runTrace dist llm
      (agent.generate_response dist llm c.user_id c.question c.user_level).2 cs

/-- The history strings passed into the prompt template by each
successive `generate_response` call of a trace. -/
def historiesUsed (dist : String → String → Nat) (llm : String → String)
    (agent : TutorAgent) : List ChatCall → List String
  | [] => []
  | c :: cs =>
    agent.conversation_memory.buffer ::
      historiesUsed dist llm
        (agent.generate_response dist llm c.user_id c.question c.user_level).2
        cs

/-- Predicate formalising a question block that contains a line starting
with the marker Correct: (splitting the block at newline characters). -/
def splitLines : List Char → List (List Char)
  | [] => [[]]
  | c :: cs =>
    match splitLines cs with
    | [] => if c = '\n' then [[], []] else [[c]]
    | l :: ls => if c = '\n' then [] :: l :: ls else (c :: l) :: ls

/-- A line that starts with the marker Correct: . -/
def isCorrectLine (l : List Char) : Bool :=
  decide (l.take 8 = "Correct:".data)

/-- Whether some line of the block starts with the marker Correct: . -/
def hasCorrectLine (s : String) : Bool :=
  (splitLines s.data).any isCorrectLine

/-- The well-formed quiz block named by the spec. -/
def wellFormedQuizBlock : String :=
  "Q: What is a pointer?\nA) x\nB) y\nC) z\nD) w\nCorrect: B\nExplanation: ...\n---"

/-! ## Theorems -/

/-- Claim C1: for every owner scope `A`, every stored set of interactions
and every query and `k`, `get_user_context` called with scope `A` returns
only texts of documents stored with metadata key user_id mapped exactly to
`A`; it never returns a document recorded under a different scope. -/
theorem retrieve_scope_isolation (dist : String → String → Nat)
    (mm : MemoryManager) (A query : String) (k : Nat) (t : String)
    (ht : t ∈ mm.get_user_context dist A query k) :
    ∃ doc ∈ mm.vectorstore.docs,
      doc.page_content = t ∧
      List.lookup "user_id" doc.metadata = some (MetaValue.str A) := by
  unfold MemoryManager.get_user_context VectorStore.similarity_search at ht
  obtain ⟨doc, hmem, rfl⟩ := List.mem_map.1 ht
  have h1 : doc ∈ List.insertionSort (docLe dist query)
      (mm.vectorstore.docs.filter
        (matchesFilter [("user_id", MetaValue.str A)])) :=
    List.mem_of_mem_take hmem
  have h2 := (List.perm_insertionSort (docLe dist query) _).subset h1
  have h3 := List.mem_filter.1 h2
  refine ⟨doc, h3.1, rfl, ?_⟩
  have h4 := h3.2
  simpa [matchesFilter] using h4

/-- Concrete store with two users whose data coexist: retrieval for u1
satisfies the scope-isolation conclusion. -/
def mmW : MemoryManager :=
  ⟨⟨[⟨"d1", [("user_id", MetaValue.str "u1")]⟩,
     ⟨"d2", [("user_id", MetaValue.str "u2")]⟩]⟩⟩

/-- Witness for C1 at a concrete two-user store. -/
theorem retrieve_scope_isolation_witness :
    "d1" ∈ mmW.get_user_context (fun _ _ => 0) "u1" "q" 5 ∧
    ∃ doc ∈ mmW.vectorstore.docs,
      doc.page_content = "d1" ∧
      List.lookup "user_id" doc.metadata = some (MetaValue.str "u1") :=
  ⟨by decide,
   retrieve_scope_isolation (fun _ _ => 0) mmW "u1" "q" 5 "d1" (by decide)⟩

/-- Claim C3: `get_user_context` returns at most `k` texts, exactly
`min k m` of them when `m` documents match the scope (hence all of them
when fewer than `k` match, and the empty list when none match, with no
error path), ordered most-similar first by the similarity service's
distance metric. -/
theorem retrieve_topk_ordered (dist : String → String → Nat)
    (mm : MemoryManager) (A query : String) (k : Nat) :
    (mm.get_user_context dist A query k).length =
      min k ((mm.vectorstore.docs.filter
        (matchesFilter [("user_id", MetaValue.str A)])).length) ∧
    (mm.get_user_context dist A query k).Pairwise
      (fun t1 t2 => dist query t1 ≤ dist query t2) := by
  constructor
  · simp [MemoryManager.get_user_context, VectorStore.similarity_search]
  · have hs := List.sorted_insertionSort (docLe dist query)
      (mm.vectorstore.docs.filter
        (matchesFilter [("user_id", MetaValue.str A)]))
    have ht := List.Pairwise.sublist (List.take_sublist k _) hs
    exact (List.pairwise_map).2 ht

/-- The conversation window of the agent is untouched by
`generate_response`: the source never appends to `conversation_memory`. -/
lemma generate_response_preserves_window (dist : String → String → Nat)
    (llm : String → String) (agent : TutorAgent)
    (user_id question : String) (user_level : Int) :
    ((agent.generate_response dist llm user_id question user_level).2).conversation_memory
      = agent.conversation_memory := rfl

/-- Rendering an empty exchange list gives the empty history string. -/
lemma intercalate_nil_eq_empty :
    String.intercalate "\n" ([] : List String) = "" := rfl

/-- The buffer of an empty window is the empty history string. -/
lemma buffer_empty (n : Nat) :
    (ConversationBufferWindowMemory.mk n []).buffer = "" := by
  simp [ConversationBufferWindowMemory.buffer, intercalate_nil_eq_empty]

/-- Helper for C2: from any agent whose window is empty, every history
string used along a trace is empty. -/
lemma historiesUsed_of_empty_window (dist : String → String → Nat)
    (llm : String → String) (agent : TutorAgent)
    (h : agent.conversation_memory.messages = [])
    (trace : List ChatCall) :
    historiesUsed dist llm agent trace = List.replicate trace.length "" := by
  induction trace generalizing agent with
  | nil => rfl
  | cons c cs ih =>
    have hb : agent.conversation_memory.buffer = "" := by
      simp [ConversationBufferWindowMemory.buffer, h, intercalate_nil_eq_empty]
    simp only [historiesUsed, List.length_cons, List.replicate, hb]
    refine congrArg _ (ih _ ?_)
    rw [generate_response_preserves_window]
    exact h

/-- Claim C2: for every trace of `generate_response` calls on the shared
agent (any mix of users), the history portion of every prompt built is the
empty string; in particular the prompt built for a call on behalf of user
U1 never contains an exchange produced by a call on behalf of a different
user U2.  This holds because the source never appends to the window, so
the window created empty at startup stays empty. -/
theorem conversation_history_noninterference (dist : String → String → Nat)
    (llm : String → String) (mm : MemoryManager) (trace : List ChatCall) :
    historiesUsed dist llm (TutorAgent.init mm) trace =
      List.replicate trace.length "" :=
  historiesUsed_of_empty_window dist llm _ rfl trace

/-- Claim C4 (failing input): after a successful `generate_response` call
on the freshly initialised agent, the conversation window is still empty:
the new exchange has not been appended, contradicting the claim that every
successful call appends the exchange to the window. -/
theorem generate_response_window_not_appended :
    (((TutorAgent.init ⟨⟨[]⟩⟩).generate_response (fun _ _ => 0)
        (fun _ => "An int pointer stores an address.")
        "u1" "What is a pointer?" 1).2).conversation_memory.messages = []
    ∧ [] ≠ [("What is a pointer?", "An int pointer stores an address.")] :=
  ⟨rfl, by decide⟩

/-- Claim C5 (failing input): on the spec's well-formed quiz block, the
parser of the source — an unimplemented stub — yields zero records, not
the one record with four options the claim describes. -/
theorem quiz_parse_wellformed_block_stub :
    TutorAgent.parseQuizResponse wellFormedQuizBlock = [] := rfl

/-- Claim C6: for every input block that lacks a line starting with the
marker Correct: , parsing yields zero records; the function is total, so
no exception is raised.  (The stub parser returns zero records for every
input.) -/
theorem quiz_parse_missing_correct_line (s : String)
    (h : hasCorrectLine s = false) :
    TutorAgent.parseQuizResponse s = [] := rfl

/-- Witness for C6 at a concrete block lacking a Correct: line. -/
theorem quiz_parse_missing_correct_line_witness :
    hasCorrectLine "Q: What is a pointer?\nA) x\nB) y\nC) z\nD) w" = false ∧
    TutorAgent.parseQuizResponse
      "Q: What is a pointer?\nA) x\nB) y\nC) z\nD) w" = [] :=
  ⟨by decide, quiz_parse_missing_correct_line _ (by decide)⟩

/-- Claim C7: every successful `generate_response(user_id, question,
user_level)` call appends exactly one document to the memory store, under
the user's scope, whose text is the Q/A pair and whose metadata holds
type=qa, the user's level, and the user id. -/
theorem generate_response_records_interaction (dist : String → String → Nat)
    (llm : String → String) (agent : TutorAgent)
    (user_id question : String) (user_level : Int) :
    ((agent.generate_response dist llm user_id question user_level).2).memory_manager.vectorstore.docs
      = agent.memory_manager.vectorstore.docs ++
        [⟨"Q: " ++ question ++ "\nA: " ++
            (agent.generate_response dist llm user_id question user_level).1,
          [("type", MetaValue.str "qa"), ("level", MetaValue.int user_level),
           ("user_id", MetaValue.str user_id)]⟩] := rfl

set_option maxRecDepth 8192 in
/-- Claim C8 (counterexample): a caller supplying num_questions = 3 to
the quiz endpoint still causes a prompt requesting 5 questions to be
submitted to the completion service: the handler signature declares only
the difficulty query parameter, so num_questions is ignored. -/
theorem api_quiz_num_questions_counterexample :
    api_quiz_prompt_submitted "pointers" [("num_questions", "3")]
      = quiz_prompt "pointers" 5 5
    ∧ api_quiz_prompt_submitted "pointers" [("num_questions", "3")]
      ≠ quiz_prompt "pointers" 5 3 := by
  exact ⟨by decide, by decide⟩

/-- Claim C8 (amended): the quiz endpoint ignores any num_questions query
parameter, and the prompt it submits always requests exactly 5 questions
(the Python default), whatever the query parameters. -/
theorem api_quiz_num_questions_ignored (topic n : String)
    (query_params : List (String × String)) :
    api_quiz_prompt_submitted topic (("num_questions", n) :: query_params)
      = api_quiz_prompt_submitted topic query_params
    ∧ ∃ d : Int, api_quiz_prompt_submitted topic query_params
        = quiz_prompt topic d 5 := by
  refine ⟨?_, api_quiz_difficulty query_params, rfl⟩
  simp [api_quiz_prompt_submitted, api_quiz_difficulty, List.lookup]

/-- Claim C9: a `POST /api/chat` request whose user id is absent from the
user table is not answered with a not-found error: the handler proceeds
with the default user level 1 and returns the normal chat response (the
external services being modelled as total, the 500 branch is
unreachable). -/
theorem chat_unknown_user_defaults_level (dist : String → String → Nat)
    (llm : String → String) (users_db : UsersDb) (agent : TutorAgent)
    (msg : ChatMessage) (h : users_db.lookup msg.user_id = none) :
    chat dist llm users_db agent msg
      = (ApiResponse.ok_chat
          (agent.generate_response dist llm msg.user_id msg.message 1).1,
         (agent.generate_response dist llm msg.user_id msg.message 1).2) := by
  simp [chat, h]

/-- Witness for C9 with an empty user table. -/
theorem chat_unknown_user_defaults_level_witness :
    List.lookup "u-unknown" ([] : UsersDb) = none ∧
    chat (fun _ _ => 0) (fun _ => "ok") [] (TutorAgent.init ⟨⟨[]⟩⟩)
        ⟨"hi", "u-unknown", none⟩
      = (ApiResponse.ok_chat
          ((TutorAgent.init ⟨⟨[]⟩⟩).generate_response (fun _ _ => 0)
            (fun _ => "ok") "u-unknown" "hi" 1).1,
         ((TutorAgent.init ⟨⟨[]⟩⟩).generate_response (fun _ _ => 0)
            (fun _ => "ok") "u-unknown" "hi" 1).2) :=
  ⟨rfl, chat_unknown_user_defaults_level _ _ _ _ _ rfl⟩

/-- Claim C10: lesson content is stored with metadata type=lesson and
lesson_id only — no user_id key — so `get_user_context`, which filters on
user_id, is unaffected by it: retrieval results never include lesson
content, for every user id and query. -/
theorem lesson_content_invisible_to_user_context
    (dist : String → String → Nat) (mm : MemoryManager)
    (lesson_id content user_id query : String) (k : Nat) :
    (mm.add_lesson_content lesson_id content).get_user_context
        dist user_id query k
      = mm.get_user_context dist user_id query k := by
  simp [MemoryManager.add_lesson_content, MemoryManager.get_user_context,
    VectorStore.similarity_search, VectorStore.add_texts, List.filter_append,
    matchesFilter, List.lookup]

end AiTutorBot
